import Mathlib

/-!
Verification of the note-scheduling core of a browser rhythm game (src/main.ts).

The repository file concatenates three committed iterations of main.ts.
Their chronological order is: the middle block (labeled "second commit"),
then the last block, then the first block — the rxjs import list strictly
accretes in that order, and only the first block carries the `position`
field and the `notes` state the data model describes.  The FIRST block is
therefore the current program; the definitions below embed it, and a
superseded definition from an earlier commit is kept under a suffix where a
property mentions it.  JavaScript numbers are modelled as rationals (the
program performs only field arithmetic on its inputs); times are seconds
relative to the instant the scheduler subscribes to the note stream.
-/

namespace RhythmGame

/-! ## Constants (src/main.ts, `Viewport`, `Constants`, `Note`) -/

namespace Viewport

def CANVAS_WIDTH : ℚ := 200

def CANVAS_HEIGHT : ℚ := 400

end Viewport

namespace Constants

def TICK_RATE_MS : ℚ := 500

def SONG_NAME : String := "RockinRobin"

end Constants

namespace Note

def RADIUS : ℚ := (7 / 100) * Viewport.CANVAS_WIDTH

def TAIL_WIDTH : ℚ := 10

end Note

/-! ## Column/Color classifier -/

/-- Result record of `assign_column`: a lane index and a fill color. -/
structure ColumnColor where
  column : ℚ
  color : String
deriving Repr, DecidableEq

/-- Truncation toward zero, as used by the JavaScript `%` operator. -/
def jsTrunc (q : ℚ) : ℤ := if 0 ≤ q then ⌊q⌋ else ⌈q⌉

/-- The JavaScript remainder operator: `a % n = a - n * trunc (a / n)`. -/
def jsRem (a n : ℚ) : ℚ := a - n * (jsTrunc (a / n) : ℚ)

/-- `assign_column` of the current program: lane and color from
`pitch % 4`.  Every remainder other than 0, 1, 2 (the remainder 3 of the
commented final branch, but also the remainders of negative or fractional
pitches) falls to the `else` branch. -/
def assign_column (pitch : ℚ) : ColumnColor :=
  let remainder := jsRem pitch 4
  if remainder = 0 then { column := 0, color := "green" }
  else if remainder = 1 then { column := 1, color := "red" }
  else if remainder = 2 then { column := 2, color := "blue" }
  else { column := 3, color := "yellow" }

/-- `assign_column` of a superseded earlier commit (the last block of the
file): contiguous pitch bands 59-61, 62-64, 65-66, 67-71, with a default
bucket for everything else. -/
def assign_column_ranges (pitch : ℚ) : ColumnColor :=
  if 59 ≤ pitch ∧ pitch ≤ 61 then { column := 0, color := "green" }
  else if 62 ≤ pitch ∧ pitch ≤ 64 then { column := 1, color := "red" }
  else if 65 ≤ pitch ∧ pitch ≤ 66 then { column := 2, color := "blue" }
  else if 67 ≤ pitch ∧ pitch ≤ 71 then { column := 3, color := "yellow" }
  else { column := 4, color := "grey" }

/-! ## Tick/State reducer (`State`, `initialState`, `tick`, and the
`scan` step of `main`) -/

/-- Game state: the `gameEnd` flag every iteration carries.  (The current
iteration additionally carries the note list, which the properties below
never inspect; its `gameEnd` projection is what the claims are about.) -/
structure State where
  gameEnd : Bool
deriving Repr, DecidableEq

def initialState : State := { gameEnd := false }

/-- `tick` from the source: the identity on states. -/
def tick (s : State) : State := s

/-- The `gameEnd` behavior of the tick pipeline.  The earlier mains feed
`scan` a reducer that returns `{ gameEnd: false }` unconditionally (the
lines claim C2 cites); the current main's `scan` over
`combineLatest([tick$, notes$])` only updates note positions and never
writes `gameEnd`, so the `gameEnd` projection of every emitted state is
likewise the unchanged `false` of `initialState`. -/
def scanStep (_ : State) : State := { gameEnd := false }

/-- State emitted after `n` clock ticks of the `scan` pipeline. -/
def stateAfter : ℕ → State
  | 0 => initialState
  | n + 1 => scanStep (stateAfter n)

/-- Clock time (seconds) of tick `n`, at `TICK_RATE_MS` per tick. -/
def tickTime (n : ℕ) : ℚ := (n : ℚ) * (Constants.TICK_RATE_MS / 1000)

/-! ## Note records (`interface NoteData`, current program) -/

/-- One parsed musical event.  `user_played` is kept as the raw string the
parser stores (`String(row[0])`); the numeric fields are rationals.  The
per-frame `position` field the current interface also declares is written
only by the tick pipeline and never read by the scheduling path embedded
here, so it is omitted. -/
structure NoteData where
  user_played : String
  instrument_name : String
  velocity : ℚ
  pitch : ℚ
  start : ℚ
  «end» : ℚ
deriving Repr, DecidableEq

/-- JavaScript truthiness of a string: every string except `""` is truthy.
This is the test `note.user_played ? ... : of(null)` performs. -/
def truthy (s : String) : Bool := !(s == "")

/-- Largest `end` across a list of notes (0 when the list is empty); the
quantity the specification measures game end against. -/
def maxEnd (notes : List NoteData) : ℚ :=
  notes.foldr (fun note acc => max note.«end» acc) 0

/-- The instrument names `SampleLibrary.load` is asked for in `main.ts`;
`samples[name]` is defined exactly for these names once loading succeeds. -/
def sampleNames : List String :=
  ["bass-electric", "violin", "piano", "trumpet", "saxophone", "trombone", "flute"]

/-! ## Playback scheduler and marker spawn (`playNotes`, current program)

`playNotes` pipes the note stream through
`mergeMap (note => note.user_played ? of(note).pipe(delay(note.start * 1000)) : of(null))`
and a `null` filter, so the per-note callback below runs exactly once per
truthy-`user_played` note, `note.start` seconds after subscription.  Inside
the callback the audio is scheduled at `Tone.now() + 1`, i.e. at absolute
time `note.start + 1`; the uniform one-second shift is the shared audio
epoch.  The callback reads `samples[note.instrument_name]` without a guard
and ends with `instrument.triggerAttackRelease(...)`: when the name is not a
loaded sampler the lookup yields `undefined` and the call throws a
`TypeError`, modelled as `Except.error ()`.  RxJS 7 catches an error thrown
by a subscriber callback and reports it asynchronously without tearing the
subscription down, so the callbacks of the remaining notes still run; the
model therefore computes every note outcome independently. -/

/-- The audio epoch: all triggers are anchored `1` second after the
callback instant (`Tone.now() + 1`), uniformly across notes. -/
def audioEpoch : ℚ := 1

/-- One `triggerAttackRelease` call: absolute time (seconds after
subscription), the MIDI value handed to the frequency conversion, the
duration, and the normalized velocity. -/
structure Trigger where
  time : ℚ
  pitch : ℚ
  duration : ℚ
  velocity : ℚ
deriving Repr, DecidableEq

/-- The SVG circle spawned for a `user_played = "True"` note: horizontal
position (percent), initial vertical position, fill color. -/
structure Marker where
  cx : ℚ
  cy : ℚ
  color : String
deriving Repr, DecidableEq

deriving instance DecidableEq for Except

/-- Everything one invocation of the subscription callback does. -/
structure NoteOutcome where
  marker : Option Marker
  audio : Except Unit Trigger
deriving Repr, DecidableEq

/-- The body of `allNotes$.subscribe(note => ...)` in the current
`playNotes`.  The marker is created before the trigger call, so it is
spawned even when the instrument lookup fails; its lane and color come
from the mod-4 `assign_column`. -/
def noteCallback (loaded : List String) (note : NoteData) : NoteOutcome :=
  let duration := note.«end» - note.start
  let velocity := note.velocity / 127
  let cc := assign_column note.pitch
  let startTime := note.start + 1
  { marker :=
      if note.user_played = "True" then
        some { cx := 20 + cc.column * 20, cy := Note.RADIUS, color := cc.color }
      else none
    audio :=
      if note.instrument_name ∈ loaded then
        Except.ok { time := startTime, pitch := note.pitch,
                    duration := duration, velocity := velocity }
      else
        Except.error () }

/-- The current `playNotes` over a note list: one outcome per note that
passes the truthiness gate, each paired with its note.  (The callbacks
actually fire in `start`-time order; the pairing, not the list order, is
what the properties below use.) -/
def playNotes (loaded : List String) (notes : List NoteData) :
    List (NoteData × NoteOutcome) :=
  (notes.filter (fun note => truthy note.user_played)).map
    (fun note => (note, noteCallback loaded note))

/-! ## Fall animation (`move$` inside the current `playNotes`)

`move$ = interval(5).pipe(takeUntil(interval(5).pipe(filter(v => v >= times - 1))), scan(p => p + 1/times, 0), map(p => p * (CANVAS_HEIGHT - 2*RADIUS)))`.
Both intervals share the 5 ms period; `takeUntil` subscribes its notifier
before the source, so at the first period where the notifier value reaches
`times - 1` the stream completes before that emission is delivered.  The
source therefore delivers emissions `0, 1, ..., emissionCount - 1`.  The
`next` handler of the current program only writes `cy := RADIUS + newY`;
the `complete` handler, which RxJS fires exactly once when the stream
ends, calls `removeNoteFromSVG`.  (A superseded earlier commit instead
removed the circle inside `next` at a `cy` threshold and did nothing on
completion.) -/

def intervalTime : ℚ := 5

/-- `times = (duration + 1.5) * 1000 / intervalTime`. -/
def times (duration : ℚ) : ℚ := (duration + 1.5) * 1000 / intervalTime

/-- Number of `move$` emissions delivered before `takeUntil` completes. -/
def emissionCount (duration : ℚ) : ℕ := (⌈times duration - 1⌉).toNat

/-- The `cy` attribute written by emission `k` (0-indexed): after that
emission `scan` has accumulated progress `(k+1)/times`. -/
def markerCy (duration : ℚ) (k : ℕ) : ℚ :=
  Note.RADIUS + (((k : ℚ) + 1) / times duration) * (Viewport.CANVAS_HEIGHT - 2 * Note.RADIUS)

/-- `removeNoteFromSVG`: detach the circle and delete it from the tracking
set.  Circles are identified here by a numeric id; DOM detachment of an
already detached node and `Set.delete` of an absent member are both
no-ops, which `Finset.erase` models. -/
def removeNoteFromSVG (noteElement : ℕ) (activeCircles : Finset ℕ) : Finset ℕ :=
  activeCircles.erase noteElement

/-- One run of the `move$` subscription for a marker `c` in active set
`s`: the list of `cy` values the `next` handler writes, and the active set
after the single `complete`-handler invocation has run
`removeNoteFromSVG`.  The `next` handler performs no removal, and
`complete` fires exactly once (the `takeUntil` notifier always eventually
fires), so the one removal in this run is the whole removal behavior of a
marker. -/
def runMarkerAnimation (duration : ℚ) (c : ℕ) (s : Finset ℕ) :
    List ℚ × Finset ℕ :=
  ((List.range (emissionCount duration)).map (fun k => markerCy duration k),
   removeNoteFromSVG c s)

/-! ## Frequency conversion -/

/-- Modelled from the spec: `Tone.Frequency(p, "midi").toFrequency()` is
Tone.js library code absent from the repository; the spec fixes the
conversion as equal-tempered with A4 = 440 Hz and 12 semitones per
octave. -/
noncomputable def midiToHz (p : ℚ) : ℝ := 440 * (2 : ℝ) ^ (((p : ℝ) - 69) / 12)

/-- Frequency of a trigger: the conversion applied to the MIDI value the
trigger was given. -/
noncomputable def triggerHz (t : Trigger) : ℝ := midiToHz t.pitch

/-! ## Parser (`parseCsvToObservables`, current program)

The observable wrapper emits one array and completes; the model returns the
array.  `jsNumber` models `Number(...)` on the decimal-formatted fields the
song files contain (`none` plays the role of `NaN`); a missing cell behaves
as JavaScript `undefined` (`String(undefined) = "undefined"`,
`Number(undefined) = NaN`).  The constant `position: 0` the current row
constructor also stores is the per-frame field omitted from the record
model. -/

/-- `Number(s)` for trimmed decimal strings: empty is 0, otherwise an
optional sign, integer digits, and an optional fraction; anything else
(including exponent forms, which the inputs do not use) is `NaN = none`. -/
def jsNumber (s : String) : Option ℚ :=
  let t := s.trim
  if t = "" then some 0
  else
    let sign : ℚ := if t.startsWith "-" then -1 else 1
    let u := if t.startsWith "-" || t.startsWith "+" then t.drop 1 else t
    match u.splitOn "." with
    | [a] => if a = "" then none else (a.toNat?).map (fun n => sign * n)
    | [a, b] =>
      if a = "" && b = "" then none
      else
        match (if a = "" then some 0 else a.toNat?),
              (if b = "" then some 0 else b.toNat?) with
        | some ia, some ib =>
          some (sign * ((ia : ℚ) + (ib : ℚ) / (10 : ℚ) ^ b.length))
        | _, _ => none
    | _ => none

/-- A row as the parser stores it: the raw flag and instrument strings and
the four converted numeric fields (`none` = `NaN`). -/
structure ParsedNote where
  user_played : String
  instrument_name : String
  velocity : Option ℚ
  pitch : Option ℚ
  start : Option ℚ
  «end» : Option ℚ
deriving Repr, DecidableEq

/-- The per-row record constructor inside `dataRows.map(row => ...)`. -/
def parseRow (row : List String) : ParsedNote :=
  { user_played := (row.get? 0).getD "undefined"
    instrument_name := (row.get? 1).getD "undefined"
    velocity := (row.get? 2).bind jsNumber
    pitch := (row.get? 3).bind jsNumber
    start := (row.get? 4).bind jsNumber
    «end» := (row.get? 5).bind jsNumber }

/-- `parseCsvToObservables`: split on newlines, split each row on commas,
drop the header row, convert each remaining row. -/
def parseCsvToObservables (csvContents : String) : List ParsedNote :=
  let rows := (csvContents.splitOn "\n").map (fun row => row.splitOn ",")
  let dataRows := rows.drop 1
  dataRows.map parseRow

/-! ## Concrete inputs used by witnesses and counterexamples -/

/-- The scenario row of the spec: `True,piano,100,67,2.0,3.5`. -/
def demoNote : NoteData :=
  { user_played := "True", instrument_name := "piano", velocity := 100,
    pitch := 67, start := 2, «end» := 7 / 2 }

/-- A note naming an instrument that is not among the loaded samplers. -/
def badNote : NoteData :=
  { user_played := "True", instrument_name := "guitar", velocity := 100,
    pitch := 62, start := 0, «end» := 1 }

/-- A note with `end < start`. -/
def revNote : NoteData :=
  { user_played := "True", instrument_name := "piano", velocity := 100,
    pitch := 67, start := 2, «end» := 1 }

/-- A note whose `user_played` field is the non-empty string "False". -/
def falseNote : NoteData :=
  { user_played := "False", instrument_name := "guitar", velocity := 1,
    pitch := 2, start := 0, «end» := 1 }

/-- A one-note list whose largest `end` is 1 second. -/
def gameEndDemoNotes : List NoteData :=
  [{ user_played := "True", instrument_name := "piano", velocity := 100,
     pitch := 60, start := 0, «end» := 1 }]

/-! ## Helper lemmas -/

theorem playNotes_map_fst (loaded : List String) (notes : List NoteData) :
    (playNotes loaded notes).map Prod.fst =
      notes.filter (fun note => truthy note.user_played) := by
  unfold playNotes
  rw [List.map_map]
  exact List.map_id _

theorem jsRem_add_four (p : ℕ) : jsRem ((p : ℚ) + 4) 4 = jsRem (p : ℚ) 4 := by
  unfold jsRem jsTrunc
  have h0 : (0 : ℚ) ≤ (p : ℚ) / 4 := by positivity
  have h1 : (0 : ℚ) ≤ ((p : ℚ) + 4) / 4 := by positivity
  rw [if_pos h1, if_pos h0]
  have h2 : ((p : ℚ) + 4) / 4 = (p : ℚ) / 4 + 1 := by ring
  rw [h2, Int.floor_add_one]
  push_cast
  ring

/-! ## C1 -/

/-- C1: every note with `user_played = "True"` and a loaded instrument is
scheduled exactly once (once per occurrence in the note list); its trigger
fires at `audioEpoch + start`, lasts `end - start`, carries velocity
`velocity / 127`, and its frequency is the equal-tempered conversion of the
pitch (A4 = 440 Hz, 12 semitones per octave). -/
theorem playNotes_user_trigger (loaded : List String) (notes : List NoteData)
    (note : NoteData) (hU : note.user_played = "True")
    (hI : note.instrument_name ∈ loaded) :
    ((playNotes loaded notes).map Prod.fst).count note = notes.count note ∧
    (noteCallback loaded note).audio =
      Except.ok { time := audioEpoch + note.start, pitch := note.pitch,
                  duration := note.«end» - note.start,
                  velocity := note.velocity / 127 } ∧
    (∀ t, (noteCallback loaded note).audio = Except.ok t →
      triggerHz t = 440 * (2 : ℝ) ^ (((note.pitch : ℝ) - 69) / 12)) := by
  refine ⟨?_, ?_, ?_⟩
  · rw [playNotes_map_fst]
    exact List.count_filter (by simp [truthy, hU])
  · simp [noteCallback, hI, audioEpoch, add_comm]
  · intro t ht
    have hvt : t = { time := note.start + 1, pitch := note.pitch,
                     duration := note.«end» - note.start,
                     velocity := note.velocity / 127 } := by
      have := (by simpa [noteCallback, hI] using ht :
        ({ time := note.start + 1, pitch := note.pitch,
           duration := note.«end» - note.start,
           velocity := note.velocity / 127 } : Trigger) = t)
      exact this.symm
    subst hvt
    rfl

/-- Witness for C1 at the scenario row `True,piano,100,67,2.0,3.5`. -/
theorem playNotes_user_trigger_witness :
    ((playNotes ["piano"] [demoNote]).map Prod.fst).count demoNote =
      [demoNote].count demoNote ∧
    (noteCallback ["piano"] demoNote).audio =
      Except.ok { time := audioEpoch + demoNote.start, pitch := demoNote.pitch,
                  duration := demoNote.«end» - demoNote.start,
                  velocity := demoNote.velocity / 127 } ∧
    (∀ t, (noteCallback ["piano"] demoNote).audio = Except.ok t →
      triggerHz t = 440 * (2 : ℝ) ^ (((demoNote.pitch : ℝ) - 69) / 12)) :=
  playNotes_user_trigger ["piano"] [demoNote] demoNote rfl (by decide)

/-! ## C2 -/

/-- C2 counterexample: at tick 4 the clock (2.0 s) is at or past the
largest note end (1.0 s), yet `gameEnd` is still `false`; the claim
required `true` there. -/
theorem gameEnd_not_latched_cex :
    maxEnd gameEndDemoNotes ≤ tickTime 4 ∧
    (stateAfter 4).gameEnd = false ∧ ¬ (stateAfter 4).gameEnd = true := by
  refine ⟨?_, rfl, by decide⟩
  norm_num [maxEnd, gameEndDemoNotes, tickTime, Constants.TICK_RATE_MS,
    max_def]

/-- C2 amended: the reducer fed to `scan` returns `{ gameEnd := false }`
unconditionally and `tick` is the identity, so `gameEnd` is `false` at
every tick; it is indeed `false` strictly before the largest note end and
it never reverts once set, but it never becomes `true` at all. -/
theorem gameEnd_always_false (n : ℕ) :
    (stateAfter n).gameEnd = false ∧ tick (stateAfter n) = stateAfter n := by
  cases n <;> exact ⟨rfl, rfl⟩

/-! ## C3 -/

/-- C3 counterexample: the current scheduler reads
`samples[note.instrument_name]` without a guard, so a note naming the
unloaded instrument "guitar" makes the callback throw a `TypeError`
(modelled as `Except.error ()`) instead of skipping silently. -/
theorem unresolved_instrument_throws_cex :
    (noteCallback sampleNames
      { user_played := "True", instrument_name := "guitar", velocity := 100,
        pitch := 60, start := 0, «end» := 1 }).audio = Except.error () := by
  decide

/-- C3 amended: a note whose instrument does not resolve produces zero
trigger events, and every other note is still processed (the per-note
callbacks are independent), but the callback throws a `TypeError` rather
than skipping silently. -/
theorem playNotes_unresolved_amended (loaded : List String)
    (notes : List NoteData) (note : NoteData)
    (hI : note.instrument_name ∉ loaded) :
    (noteCallback loaded note).audio = Except.error () ∧
    (∀ t, (noteCallback loaded note).audio ≠ Except.ok t) ∧
    (playNotes loaded notes).map Prod.fst =
      notes.filter (fun n => truthy n.user_played) := by
  refine ⟨by simp [noteCallback, hI], ?_, playNotes_map_fst loaded notes⟩
  intro t ht
  simp [noteCallback, hI] at ht

/-- Witness for the amended C3 at the "guitar" note. -/
theorem playNotes_unresolved_amended_witness :
    (noteCallback sampleNames badNote).audio = Except.error () ∧
    (∀ t, (noteCallback sampleNames badNote).audio ≠ Except.ok t) ∧
    (playNotes sampleNames [badNote]).map Prod.fst =
      [badNote].filter (fun n => truthy n.user_played) :=
  playNotes_unresolved_amended sampleNames [badNote] badNote (by decide)

/-! ## C4 -/

/-- C4: the classifier of the current program and the superseded
range-band classifier are both total, produce exactly one lane/color
record per pitch, and are deterministic: equal pitches give equal
results. -/
theorem assign_column_total_det (p : ℚ) :
    (∃! r : ColumnColor, assign_column p = r) ∧
    (∃! r : ColumnColor, assign_column_ranges p = r) ∧
    (∀ q : ℚ, p = q → assign_column p = assign_column q ∧
      assign_column_ranges p = assign_column_ranges q) :=
  ⟨⟨assign_column p, rfl, fun _ h => h.symm⟩,
   ⟨assign_column_ranges p, rfl, fun _ h => h.symm⟩,
   fun q h => by rw [h]; exact ⟨rfl, rfl⟩⟩

/-- Witness for C4 at pitch 60. -/
theorem assign_column_total_det_witness :
    (∃! r : ColumnColor, assign_column 60 = r) ∧
    (∃! r : ColumnColor, assign_column_ranges 60 = r) ∧
    (assign_column 60 = assign_column 60 ∧
      assign_column_ranges 60 = assign_column_ranges 60) :=
  ⟨(assign_column_total_det 60).1, (assign_column_total_det 60).2.1,
   (assign_column_total_det 60).2.2 60 rfl⟩

/-! ## C5 -/

/-- C5: the classifier of the current program returns a lane in 0..3 for
every pitch, and every pitch outside the explicitly declared remainder
cases 0, 1 and 2 — including negative and fractional pitches — falls into
the defined default bucket `{ column := 3, color := "yellow" }` rather
than an error. -/
theorem assign_column_lane_in_range (p : ℚ) :
    (0 ≤ (assign_column p).column ∧ (assign_column p).column ≤ 3) ∧
    (jsRem p 4 ≠ 0 ∧ jsRem p 4 ≠ 1 ∧ jsRem p 4 ≠ 2 →
      assign_column p = { column := 3, color := "yellow" }) := by
  constructor
  · simp only [assign_column]
    split_ifs <;> decide
  · intro h
    obtain ⟨h0, h1, h2⟩ := h
    simp only [assign_column]
    rw [if_neg h0, if_neg h1, if_neg h2]

/-- Witness for C5 at pitch 3, whose remainder is 3: the lane is within
0..3 and the default bucket is taken. -/
theorem assign_column_lane_in_range_witness :
    (0 ≤ (assign_column 3).column ∧ (assign_column 3).column ≤ 3) ∧
    assign_column 3 = { column := 3, color := "yellow" } := by
  have hfloor : ⌊(3 / 4 : ℚ)⌋ = 0 := by
    rw [Int.floor_eq_zero_iff, Set.mem_Ico]
    constructor <;> norm_num
  have hrem : jsRem 3 4 = 3 := by
    unfold jsRem jsTrunc
    rw [if_pos (by norm_num : (0 : ℚ) ≤ 3 / 4), hfloor]
    norm_num
  exact ⟨(assign_column_lane_in_range 3).1,
    (assign_column_lane_in_range 3).2
      ⟨by rw [hrem]; norm_num, by rw [hrem]; norm_num, by rw [hrem]; norm_num⟩⟩

/-! ## C6 -/

/-- C6: parsing a tabular input yields exactly one record per line after
the header, in line order. -/
theorem parseCsv_rows (csvContents : String) :
    (parseCsvToObservables csvContents).length =
      (csvContents.splitOn "\n").length - 1 ∧
    ∀ i : ℕ, (parseCsvToObservables csvContents)[i]? =
      ((csvContents.splitOn "\n")[i + 1]?).map
        (fun line => parseRow (line.splitOn ",")) := by
  unfold parseCsvToObservables
  constructor
  · simp
  · intro i
    simp only [List.getElem?_map, List.getElem?_drop, Option.map_map]
    rw [Nat.add_comm]
    rfl

/-! ## C7 -/

/-- C7 counterexample: the row with `start = 2`, `end = 1` produces a
trigger whose duration is `-1 < 0`; nothing is clamped. -/
theorem negative_duration_trigger_cex :
    (noteCallback sampleNames
      { user_played := "True", instrument_name := "piano", velocity := 100,
        pitch := 67, start := 2, «end» := 1 }).audio =
      Except.ok { time := 3, pitch := 67, duration := -1,
                  velocity := 100 / 127 } ∧
    ¬ (0 : ℚ) ≤ (-1 : ℚ) := by
  constructor
  · simp only [noteCallback, sampleNames]
    norm_num [Except.ok.injEq, Trigger.mk.injEq]
  · norm_num

/-- C7 amended: a note with `end < start` still produces its trigger, with
duration exactly `end - start`, which is negative (no clamping occurs); the
marker, when one is spawned, moves monotonically downward (it never
animates backward) for as long as its animation emits at all. -/
theorem negative_duration_amended (loaded : List String) (note : NoteData)
    (hI : note.instrument_name ∈ loaded)
    (hlt : note.«end» < note.start) :
    (∃ t, (noteCallback loaded note).audio = Except.ok t ∧
      t.duration = note.«end» - note.start ∧ t.duration < 0) ∧
    (∀ k₁ k₂ : ℕ, k₁ ≤ k₂ → 0 < times (note.«end» - note.start) →
      markerCy (note.«end» - note.start) k₁ ≤
        markerCy (note.«end» - note.start) k₂) := by
  constructor
  · refine ⟨{ time := note.start + 1, pitch := note.pitch,
              duration := note.«end» - note.start,
              velocity := note.velocity / 127 }, by simp [noteCallback, hI],
            rfl, ?_⟩
    exact sub_neg.mpr hlt
  · intro k₁ k₂ hk hT
    unfold markerCy
    have hC : (0 : ℚ) ≤ Viewport.CANVAS_HEIGHT - 2 * Note.RADIUS := by
      norm_num [Viewport.CANVAS_HEIGHT, Note.RADIUS, Viewport.CANVAS_WIDTH]
    have hk1 : ((k₁ : ℚ) + 1) ≤ (k₂ : ℚ) + 1 := by
      have := (Nat.cast_le (α := ℚ)).mpr hk
      linarith
    have hdiv : ((k₁ : ℚ) + 1) / times (note.«end» - note.start) ≤
        ((k₂ : ℚ) + 1) / times (note.«end» - note.start) :=
      (div_le_div_iff_of_pos_right hT).mpr hk1
    exact add_le_add_left (mul_le_mul_of_nonneg_right hdiv hC) _

/-- Witness for the amended C7 at the `start = 2`, `end = 1` note. -/
theorem negative_duration_amended_witness :
    (∃ t, (noteCallback sampleNames revNote).audio = Except.ok t ∧
      t.duration = revNote.«end» - revNote.start ∧ t.duration < 0) ∧
    (∀ k₁ k₂ : ℕ, k₁ ≤ k₂ → 0 < times (revNote.«end» - revNote.start) →
      markerCy (revNote.«end» - revNote.start) k₁ ≤
        markerCy (revNote.«end» - revNote.start) k₂) :=
  negative_duration_amended sampleNames revNote (by decide) (by decide)

/-! ## C8 -/

/-- C8: every marker is removed exactly once, by the single
`complete`-handler invocation of its `move$` subscription at animation
completion; every position the `next` handler writes stays strictly above
the viewport bottom (so completion is the earliest of the two termination
conditions — the bottom is never crossed), the removal takes the marker
out of the active set, and removing an already-removed marker is a no-op
rather than an error. -/
theorem marker_removed_once_at_completion (d : ℚ) (c : ℕ) (s : Finset ℕ) :
    (∀ y ∈ (runMarkerAnimation d c s).1, y < Viewport.CANVAS_HEIGHT) ∧
    c ∉ (runMarkerAnimation d c s).2 ∧
    removeNoteFromSVG c (runMarkerAnimation d c s).2 =
      (runMarkerAnimation d c s).2 := by
  refine ⟨?_, ?_, ?_⟩
  · intro y hy
    simp only [runMarkerAnimation, List.mem_map, List.mem_range] at hy
    obtain ⟨k, hk, rfl⟩ := hy
    rcases le_or_lt (times d) 0 with hT | hT
    · exfalso
      have hle : ⌈times d - 1⌉ ≤ 0 := by
        rw [Int.ceil_le]
        push_cast
        linarith
      have hzero : emissionCount d = 0 := by
        rw [emissionCount, Int.toNat_of_nonpos hle]
      omega
    · have h1 : (k : ℚ) + 1 ≤ (emissionCount d : ℚ) := by
        exact_mod_cast Nat.succ_le_of_lt hk
      have h2 : ((emissionCount d : ℕ) : ℚ) < times d := by
        rw [emissionCount]
        rcases le_or_lt 0 (⌈times d - 1⌉) with h | h
        · have hcast : ((⌈times d - 1⌉.toNat : ℕ) : ℚ) =
              ((⌈times d - 1⌉ : ℤ) : ℚ) := by
            exact_mod_cast Int.toNat_of_nonneg h
          rw [hcast]
          have hceil := Int.ceil_lt_add_one (times d - 1)
          push_cast at hceil ⊢
          linarith
        · rw [Int.toNat_of_nonpos h.le]
          push_cast
          exact hT
      have h3 : ((k : ℚ) + 1) / times d < 1 :=
        (div_lt_one hT).mpr (lt_of_le_of_lt h1 h2)
      have hR : Note.RADIUS = 14 := by
        norm_num [Note.RADIUS, Viewport.CANVAS_WIDTH]
      have hH : Viewport.CANVAS_HEIGHT = 400 := rfl
      unfold markerCy
      rw [hR, hH]
      have h4 : ((k : ℚ) + 1) / times d * (400 - 2 * 14 : ℚ) <
          1 * (400 - 2 * 14 : ℚ) := by
        apply mul_lt_mul_of_pos_right h3
        norm_num
      linarith
  · exact Finset.not_mem_erase c s
  · exact Finset.erase_idem

/-- Witness for C8 at a zero-duration marker and a one-element active set:
the first written position is below the viewport bottom, and the single
completion removal empties the set and is idempotent. -/
theorem marker_removed_once_at_completion_witness :
    markerCy 0 0 < Viewport.CANVAS_HEIGHT ∧
    0 ∉ (runMarkerAnimation 0 0 {0}).2 ∧
    removeNoteFromSVG 0 (runMarkerAnimation 0 0 {0}).2 =
      (runMarkerAnimation 0 0 {0}).2 := by
  obtain ⟨h1, h2, h3⟩ := marker_removed_once_at_completion 0 0 {0}
  refine ⟨h1 (markerCy 0 0) ?_, h2, h3⟩
  simp only [runMarkerAnimation, List.mem_map, List.mem_range]
  refine ⟨0, ?_, rfl⟩
  have htimes : times 0 - 1 = ((299 : ℤ) : ℚ) := by
    norm_num [times, intervalTime]
  rw [emissionCount, htimes, Int.ceil_intCast]
  norm_num

/-! ## C9 -/

/-- C9: any note whose `user_played` string is non-empty — "False" as much
as "True" — passes the truthiness gate into the audio pipeline, while the
visual marker is spawned exactly when the string is "True". -/
theorem playNotes_string_gate (loaded : List String) (notes : List NoteData)
    (note : NoteData) (hmem : note ∈ notes) (hne : note.user_played ≠ "") :
    note ∈ (playNotes loaded notes).map Prod.fst ∧
    ((noteCallback loaded note).marker.isSome ↔ note.user_played = "True") := by
  constructor
  · rw [playNotes_map_fst]
    exact List.mem_filter.mpr ⟨hmem, by simp [truthy, hne]⟩
  · simp only [noteCallback]
    split_ifs with h <;> simp [h]

/-- Witness for C9 at a `user_played = "False"` note: it is scheduled for
audio and no marker is spawned. -/
theorem playNotes_string_gate_witness :
    falseNote ∈ (playNotes sampleNames [falseNote]).map Prod.fst ∧
    ((noteCallback sampleNames falseNote).marker.isSome ↔
      falseNote.user_played = "True") :=
  playNotes_string_gate sampleNames [falseNote] falseNote
    (List.mem_singleton.mpr rfl) (by decide)

/-! ## C10 -/

/-- C10: the mod-4 classifier of the current program is 4-periodic on the
natural pitches: lane and color depend only on the pitch modulo 4. -/
theorem assign_column_mod_periodic (p : ℕ) :
    assign_column (p : ℚ) = assign_column ((p : ℚ) + 4) := by
  simp only [assign_column]
  rw [jsRem_add_four]

end RhythmGame
